import Mathlib

/-!
Verification of the webhook notification dispatcher
(`freqtrade/rpc/webhook.py`) and of the hyperopt loss function
(`user_data/hyperopts/AvgProfitDrawDownDurationLoss.py`).

The Python code is shallowly embedded: exceptions become an explicit
`Except` result, HTTP traffic and log calls become an event trace, and
the network is an oracle mapping each (attempt, url) pair to an outcome.
-/

set_option autoImplicit false

namespace FT

/-- Python exception values that the webhook module and the loss module can
raise.  `notImplementedError` embeds the `NotImplementedError` of
`Webhook._post_msg`, which the specification names `ConfigurationError`;
`unboundLocalError` embeds the `UnboundLocalError` raised when a local
variable is read before assignment (a subclass of `NameError`, and in
particular not a `KeyError`). -/
inductive PyExc where
  | keyError (k : String)
  | requestException
  | notImplementedError (m : String)
  | unboundLocalError (n : String)
  | nameError (n : String)
  | valueError
  deriving DecidableEq, Repr

/-- One piece of a Python format string: either literal text or a
`\x7bfieldname\x7d` placeholder. -/
inductive TmplPart where
  | lit (s : String)
  | field (f : String)
  deriving DecidableEq, Repr

/-- A template string of the webhook configuration, split into parts. -/
abbrev Template := List TmplPart

/-- One per-event-type mapping of the webhook configuration: output key to
template string (a Python dict, empty meaning falsy). -/
abbrev ValueDict := List (String × Template)

/-- An event record handed to `Webhook.send_msg`.  The `type` tag is kept as
its canonical string value.  Modelled from the spec: the `RPCMessageType`
enum module is not part of the supplied sources, and the spec treats the
type space as open (section 4.1 item 4 speaks of further unmapped types),
so the tag is an arbitrary string with the known canonical values named
below. -/
structure Msg where
  type : String
  fields : List (String × String)
  deriving DecidableEq, Repr

/-- The substitution context `**msg` used by `value.format(**msg)`: the
`type` entry together with the remaining fields of the record. -/
def msgCtx (m : Msg) : List (String × String) :=
  ("type", m.type) :: m.fields

/-- Canonical values of the passive message types that
`Webhook._get_value_dict` skips on purpose.  Modelled from the spec: the
enum source is absent; these are the canonical names of
PROTECTION_TRIGGER, PROTECTION_TRIGGER_GLOBAL, WHITELIST, ANALYZED_DF,
NEW_CANDLE and STRATEGY_MSG. -/
def passiveTypes : List String :=
  ["protection_trigger", "protection_trigger_global", "whitelist",
   "analyzed_df", "new_candle", "strategy_msg"]

/-- Substitute a format string left to right; the first placeholder whose
field is absent from the context raises `KeyError`, exactly as
`str.format(**msg)` does. -/
def formatTmpl (ctx : List (String × String)) : Template → Except PyExc String
  | [] => .ok ""
  | .lit s :: rest => (formatTmpl ctx rest).map (fun r => s ++ r)
  | .field f :: rest =>
    match ctx.lookup f with
    | none => .error (.keyError f)
    | some v => (formatTmpl ctx rest).map (fun r => v ++ r)

/-- The dict comprehension of `send_msg`:
`\x7bkey: value.format(**msg) for (key, value) in valuedict.items()\x7d`.
It fails as a whole on the first missing field, producing no partial
payload. -/
def renderPayload (ctx : List (String × String)) :
    ValueDict → Except PyExc (List (String × String))
  | [] => .ok []
  | (k, t) :: rest => do
    let v ← formatTmpl ctx t
    let r ← renderPayload ctx rest
    .ok ((k, v) :: r)

/-- The `url` option: `isinstance(self._url, list)` distinguishes a single
string from a list of strings. -/
inductive UrlConf where
  | single (u : String)
  | list (us : List String)
  deriving DecidableEq, Repr

/-- The webhook section of the configuration, as read by
`Webhook.__init__`: url, format, retries, retry_delay and timeout options,
plus the per-event-type template mappings keyed by event-type name or
legacy alias. -/
structure WebhookConfig where
  url : UrlConf
  format : String
  retries : Nat
  retry_delay : Rat
  timeout : Nat
  templates : List (String × ValueDict)
  deriving DecidableEq, Repr

/-- Embedding of `Webhook._get_value_dict`.  Branch order follows the
source: exact key first, then the six legacy entry/exit aliases, then the
status group, then the passive group (returning `None`); any other type
falls off the end of the if/elif chain with the local `valuedict` never
assigned, so `return valuedict` raises `UnboundLocalError`. -/
def getValueDict (cfg : WebhookConfig) (m : Msg) :
    Except PyExc (Option ValueDict) :=
  if (cfg.templates.lookup m.type).isSome then
    .ok (cfg.templates.lookup m.type)
  else if m.type = "entry" then .ok (cfg.templates.lookup "webhookentry")
  else if m.type = "entry_cancel" then
    .ok (cfg.templates.lookup "webhookentrycancel")
  else if m.type = "entry_fill" then
    .ok (cfg.templates.lookup "webhookentryfill")
  else if m.type = "exit" then .ok (cfg.templates.lookup "webhookexit")
  else if m.type = "exit_fill" then
    .ok (cfg.templates.lookup "webhookexitfill")
  else if m.type = "exit_cancel" then
    .ok (cfg.templates.lookup "webhookexitcancel")
  else if m.type ∈ ["status", "startup", "exception", "warning"] then
    .ok (cfg.templates.lookup "webhookstatus")
  else if m.type ∈ passiveTypes then
    .ok none
  else
    .error (.unboundLocalError "valuedict")

/-- The body a single `requests.post` call transmits, by wire format. -/
inductive Body where
  | form (fields : List (String × String))
  | json (fields : List (String × String))
  | raw (data : String)
  deriving DecidableEq, Repr

/-- Observable effects of one `send_msg` call: HTTP posts (with body and the
explicitly set content-type header, if any), sleeps, and log records at
their levels. -/
inductive Event where
  | post (url : String) (body : Body) (contentType : Option String)
  | sleep (d : Rat)
  | logDebug (s : String)
  | logInfo (s : String)
  | logWarning (s : String)
  | logError (s : String)
  deriving DecidableEq, Repr

/-- Outcome of one HTTP post as the network decides it: either
`requests.post` itself raises a `RequestException`, or a response with the
given status code comes back. -/
inductive PostResult where
  | exc
  | resp (status : Nat)
  deriving DecidableEq, Repr

/-- A network oracle: the outcome of posting to a given url during a given
attempt (attempts are numbered from 1; within one attempt each url is
posted at most once). -/
abbrev Net := Nat → String → PostResult

/-- Perform one `requests.post`: the post event is always emitted (the call
went out), and the oracle decides whether it raises or returns a status. -/
def doPost (url : String) (b : Body) (ct : Option String) (net1 : PostResult) :
    List Event × Except PyExc Nat :=
  ([.post url b ct],
   match net1 with
   | .exc => .error .requestException
   | .resp s => .ok s)

/-- Embedding of `Webhook._post_msg`: dispatch on the format string.  For
`raw`, `payload["data"]` is evaluated before the call, so a missing `data`
key raises `KeyError` with no post made; an unrecognized format raises
`NotImplementedError` with no post made. -/
def postMsg (fmt : String) (net1 : PostResult) (url : String)
    (payload : List (String × String)) : List Event × Except PyExc Nat :=
  if fmt = "form" then doPost url (.form payload) none net1
  else if fmt = "json" then doPost url (.json payload) none net1
  else if fmt = "raw" then
    match payload.lookup "data" with
    | some d => doPost url (.raw d) (some "text/plain") net1
    | none => ([], .error (.keyError "data"))
  else ([], .error (.notImplementedError ("Unknown format: " ++ fmt)))

/-- `response.raise_for_status()`: statuses 400 and above raise
`RequestException` (an `HTTPError`). -/
def raiseForStatus (s : Nat) : Except PyExc Unit :=
  if 400 ≤ s then .error .requestException else .ok ()

/-- The `for url in self._url` loop of `_send_msg`: posts to each url in
order, aborting on the first raised exception; on completion it returns
the status of the LAST response (`some`), or `none` when the list was
empty and the local `response` was never assigned. -/
def postSeq (fmt : String) (netAtt : String → PostResult)
    (payload : List (String × String)) :
    List String → List Event × Except PyExc (Option Nat)
  | [] => ([], .ok none)
  | u :: us =>
    let (evs, r) := postMsg fmt (netAtt u) u payload
    match r with
    | .error e => (evs, .error e)
    | .ok s =>
      let (evs2, r2) := postSeq fmt netAtt payload us
      (evs ++ evs2,
       match r2 with
       | .ok none => .ok (some s)
       | r2 => r2)

/-- The try body of one iteration of the `_send_msg` loop: post to the
destination(s), then `raise_for_status` on the one response variable (the
last assigned).  An empty url list leaves `response` unbound. -/
def tryAttempt (cfg : WebhookConfig) (netAtt : String → PostResult)
    (payload : List (String × String)) : List Event × Except PyExc Unit :=
  let (evs, r) :=
    match cfg.url with
    | .single u =>
      let (e1, r1) := postMsg cfg.format (netAtt u) u payload
      (e1, r1.map some)
    | .list us => postSeq cfg.format netAtt payload us
  (evs,
   match r with
   | .error e => .error e
   | .ok none => .error (.unboundLocalError "response")
   | .ok (some s) => raiseForStatus s)

/-- The `if attempts:` prologue of a loop iteration: sleep `retry_delay`
when it is nonzero, then log the retry at info level; nothing before the
first attempt. -/
def retryPrologue (cfg : WebhookConfig) (attempts : Nat) : List Event :=
  if attempts = 0 then []
  else
    (if cfg.retry_delay = 0 then [] else [.sleep cfg.retry_delay]) ++
      [.logInfo "Retrying webhook..."]

/-- Embedding of the `while not success and attempts <= self._retries` loop
of `_send_msg`.  `fuel` bounds the iterations (it is called with
`retries + 1 - attempts` available, which the guard makes exact); a caught
`RequestException` logs a warning and loops, any other exception
propagates, success exits. -/
def sendLoop (cfg : WebhookConfig) (net : Net)
    (payload : List (String × String)) :
    Nat → Nat → List Event × Except PyExc Unit
  | 0, _ => ([], .ok ())
  | fuel + 1, attempts =>
    if attempts ≤ cfg.retries then
      let pre := retryPrologue cfg attempts
      let (evs, r) := tryAttempt cfg (net (attempts + 1)) payload
      match r with
      | .ok _ => (pre ++ evs, .ok ())
      | .error .requestException =>
        let (evs2, r2) := sendLoop cfg net payload fuel (attempts + 1)
        (pre ++ evs ++ [.logWarning "Could not call webhook url."] ++ evs2, r2)
      | .error e => (pre ++ evs, .error e)
    else ([], .ok ())

/-- Embedding of `Webhook._send_msg`: run the retry loop from zero attempts
with enough fuel for the `attempts <= retries` guard to be the real
bound. -/
def sendMsgInner (cfg : WebhookConfig) (net : Net)
    (payload : List (String × String)) : List Event × Except PyExc Unit :=
  sendLoop cfg net payload (cfg.retries + 1) 0

/-- The try body of `Webhook.send_msg`: route, check falsiness of the
value dict (`None` or empty), render the payload, then deliver. -/
def sendMsgCore (cfg : WebhookConfig) (net : Net) (m : Msg) :
    List Event × Except PyExc Unit :=
  match getValueDict cfg m with
  | .error e => ([], .error e)
  | .ok none =>
    ([.logDebug ("Message type not configured for webhooks: " ++ m.type)],
     .ok ())
  | .ok (some []) =>
    ([.logDebug ("Message type not configured for webhooks: " ++ m.type)],
     .ok ())
  | .ok (some (kv :: rest)) =>
    match renderPayload (msgCtx m) (kv :: rest) with
    | .error e => ([], .error e)
    | .ok payload => sendMsgInner cfg net payload

/-- Embedding of the public `Webhook.send_msg`: the whole body runs under
`try ... except KeyError`, which logs the problem via `logger.exception`
(error level) and returns; every other exception propagates to the
caller. -/
def send_msg (cfg : WebhookConfig) (net : Net) (m : Msg) :
    List Event × Except PyExc Unit :=
  let (evs, r) := sendMsgCore cfg net m
  match r with
  | .error (.keyError k) =>
    (evs ++ [.logError ("Problem calling Webhook. KeyError: " ++ k)], .ok ())
  | r => (evs, r)

/-- Is the event an HTTP post? -/
def isPost : Event → Bool
  | .post _ _ _ => true
  | _ => false

/-- Number of HTTP posts in a trace. -/
def countPosts (t : List Event) : Nat := (t.filter isPost).length

/-- Number of HTTP posts to one given url in a trace. -/
def postsTo (u : String) (t : List Event) : Nat :=
  (t.filter (fun e =>
    match e with
    | .post u2 _ _ => u2 = u
    | _ => false)).length

/-- Number of sleep events in a trace. -/
def countSleeps (t : List Event) : Nat :=
  (t.filter (fun e =>
    match e with
    | .sleep _ => true
    | _ => false)).length

/-- Number of warning-level log records in a trace. -/
def countWarnings (t : List Event) : Nat :=
  (t.filter (fun e =>
    match e with
    | .logWarning _ => true
    | _ => false)).length

/-- A post outcome that `_send_msg` treats as a failure: either the post
raised, or the response status makes `raise_for_status` raise. -/
def isFailing : PostResult → Bool
  | .exc => true
  | .resp s => 400 ≤ s

/-- The configuration names at least one destination (a single url, or a
nonempty url list). -/
def hasDest : UrlConf → Prop
  | .single _ => True
  | .list us => us ≠ []

/-- The columns of the backtest results frame that
`hyperopt_loss_function` reads, with numeric entries as rationals. -/
structure ResultsDF where
  profit_abs : List Rat
  trade_duration : List Rat
  deriving DecidableEq, Repr

/-- Mean of a column (`Series.mean`). -/
def listMean (xs : List Rat) : Rat := xs.sum / xs.length

/-- What the free name `config` denotes in the module namespace of
`AvgProfitDrawDownDurationLoss.py`: nothing.  The module binds only
`datetime`, `DataFrame`, `Config`, `calculate_expectancy`,
`IHyperOptLoss` and the class itself, so evaluating `config` raises
`NameError`. -/
def configBinding : Option (String → Option Rat) := none

/-- What the free name `calculate_max_drawdown` denotes in the module
namespace: nothing (the import brings in `calculate_expectancy`, not
`calculate_max_drawdown`), so evaluating it raises `NameError`. -/
def calculateMaxDrawdownBinding :
    Option (ResultsDF → Except PyExc (Rat × Rat)) := none

/-- Evaluate an `Option` binding, raising the given exception when the name
is unbound or the key absent. -/
def ofOption {α : Type} (e : PyExc) : Option α → Except PyExc α
  | some a => .ok a
  | none => .error e

/-- Embedding of
`AvgProfitDrawDownDurationLoss.hyperopt_loss_function`, statement by
statement.  The first executed statement,
`starting_balance = config["dry_run_wallet"]`, evaluates the free name
`config` against the module namespace; the later `try` block evaluates
`calculate_max_drawdown` the same way, and its `except ValueError`
handler would not catch a `NameError`. -/
def hyperopt_loss_function (results : ResultsDF) (trade_count : Int)
    (min_date max_date : Int) : Except PyExc Rat := do
  let c ← ofOption (.nameError "config") configBinding
  let starting_balance ← ofOption (.keyError "dry_run_wallet")
    (c "dry_run_wallet")
  let total_profit0 := results.profit_abs.map (fun x => x / starting_balance)
  let average_profit0 := listMean total_profit0 * 100
  let total_profit := results.profit_abs.sum
  let td := listMean results.trade_duration
  let trade_duration := if td = 0 then 1 else td
  match (do
      let f ← ofOption (.nameError "calculate_max_drawdown")
        calculateMaxDrawdownBinding
      f results : Except PyExc (Rat × Rat)) with
  | .error .valueError => .ok 0
  | .error e => .error e
  | .ok max_drawdown =>
    let average_profit :=
      if total_profit < 0 ∧ average_profit0 < 0 then -average_profit0
      else average_profit0
    .ok (-total_profit * min average_profit 15 /
      (max_drawdown.1 * trade_duration))

/-! ## Concrete fixtures used by the closed theorems -/

/-- A configuration with one destination, form format and a `status`
template, but no key for the type `mystery`. -/
def cfgC1 : WebhookConfig :=
  { url := .single "http://host/hook", format := "form", retries := 0,
    retry_delay := 1 / 10, timeout := 10,
    templates := [("status", [("status", [TmplPart.field "status"])])] }

/-- A network that always answers 200. -/
def netOk : Net := fun _ _ => .resp 200

/-- An event record whose type is not a configured key, not a legacy
alias, and not a passive type. -/
def msgC1 : Msg := { type := "mystery", fields := [] }

/-- A configuration with no template keys at all. -/
def cfgC2 : WebhookConfig :=
  { url := .single "http://host/hook", format := "form", retries := 2,
    retry_delay := 1 / 10, timeout := 10, templates := [] }

/-- Another event record with an unmapped type. -/
def msgC2 : Msg := { type := "unknown_event", fields := [] }

/-! ## Claim theorems -/

/-- C10: for every results frame, trade count and date range,
`AvgProfitDrawDownDurationLoss.hyperopt_loss_function` raises `NameError`
on the unbound name `config` before returning any value; no call ever
produces a number. -/
theorem hyperopt_loss_always_nameError (results : ResultsDF)
    (trade_count : Int) (min_date max_date : Int) :
    hyperopt_loss_function results trade_count min_date max_date =
      .error (.nameError "config") := rfl

/-- C1 (code bug): `send_msg` does not keep its never-raise contract.  On
an event whose type is unmapped, the unassigned local `valuedict` raises
`UnboundLocalError`, which the `except KeyError` handler does not catch,
so an exception other than the permitted configuration error escapes to
the caller. -/
theorem send_msg_escapes_unboundLocal :
    (send_msg cfgC1 netOk msgC1).2 = .error (.unboundLocalError "valuedict") :=
  rfl

/-- C2 (code bug): an event whose type is not an exact key, not a legacy
alias and not a passive type does make zero HTTP calls, but instead of a
debug log and a clean return, `send_msg` raises `UnboundLocalError` to
the caller and logs nothing. -/
theorem send_msg_unmapped_type_crashes :
    send_msg cfgC2 netOk msgC2 = ([], .error (.unboundLocalError "valuedict")) :=
  rfl

/-! ## Helper lemmas about the delivery loop -/

/-- A failing outcome on a single destination with form format makes one
attempt produce exactly one post and a caught `RequestException`. -/
theorem tryAttempt_single_form_fail (cfg : WebhookConfig) (u : String)
    (netAtt : String → PostResult) (payload : List (String × String))
    (hu : cfg.url = .single u) (hf : cfg.format = "form")
    (hfail : isFailing (netAtt u) = true) :
    tryAttempt cfg netAtt payload =
      ([.post u (.form payload) none], .error .requestException) := by
  rcases h : netAtt u with _ | s
  · simp [tryAttempt, postMsg, doPost, hu, hf, h, Except.map]
  · have hs : 400 ≤ s := by
      have h2 := hfail
      rw [h] at h2
      simpa [isFailing] using h2
    simp [tryAttempt, postMsg, doPost, hu, hf, h, raiseForStatus, hs, Except.map]

/-- One iteration of the retry loop on a caught `RequestException`:
prologue, attempt events, warning, then the rest of the loop. -/
theorem sendLoop_fail_step (cfg : WebhookConfig) (net : Net)
    (payload : List (String × String)) (fuel attempts : Nat)
    (evs : List Event) (hle : attempts ≤ cfg.retries)
    (ha : tryAttempt cfg (net (attempts + 1)) payload =
      (evs, .error .requestException)) :
    sendLoop cfg net payload (fuel + 1) attempts =
      (retryPrologue cfg attempts ++ evs ++
        [.logWarning "Could not call webhook url."] ++
        (sendLoop cfg net payload fuel (attempts + 1)).1,
       (sendLoop cfg net payload fuel (attempts + 1)).2) := by
  rcases hrec : sendLoop cfg net payload fuel (attempts + 1) with ⟨evs2, r2⟩
  simp [sendLoop, hle, ha, hrec]

/-- C4: with `retries = 2`, a single destination and every post failing,
`_send_msg` performs exactly three posts, sleeps `retry_delay` before each
re-attempt but not before the first attempt, logs a warning for each
failure, and ends without raising (the notification is dropped). -/
theorem webhook_retries2_three_posts (cfg : WebhookConfig) (u : String)
    (net : Net) (payload : List (String × String))
    (hu : cfg.url = .single u) (hf : cfg.format = "form")
    (hr : cfg.retries = 2) (hd : cfg.retry_delay ≠ 0)
    (hfail : ∀ i, isFailing (net i u) = true) :
    sendMsgInner cfg net payload =
      ([.post u (.form payload) none,
        .logWarning "Could not call webhook url.",
        .sleep cfg.retry_delay, .logInfo "Retrying webhook...",
        .post u (.form payload) none,
        .logWarning "Could not call webhook url.",
        .sleep cfg.retry_delay, .logInfo "Retrying webhook...",
        .post u (.form payload) none,
        .logWarning "Could not call webhook url."], .ok ()) := by
  have ha : ∀ i, tryAttempt cfg (net i) payload =
      ([.post u (.form payload) none], .error .requestException) :=
    fun i => tryAttempt_single_form_fail cfg u (net i) payload hu hf (hfail i)
  have h3 : sendLoop cfg net payload 0 3 = ([], .ok ()) := rfl
  have h2 := sendLoop_fail_step cfg net payload 0 2 _ (by rw [hr]) (ha 3)
  rw [h3] at h2
  have h1 := sendLoop_fail_step cfg net payload 1 1 _
    (by rw [hr]; exact one_le_two) (ha 2)
  rw [h2] at h1
  have h0 := sendLoop_fail_step cfg net payload 2 0 _ (by rw [hr]; exact Nat.zero_le 2)
    (ha 1)
  rw [h1] at h0
  show sendLoop cfg net payload (cfg.retries + 1) 0 = _
  rw [hr, h0]
  simp [retryPrologue, hd]

/-- C5: when some placeholder of the selected template mapping names a
field absent from the event record, the rendering comprehension raises
`KeyError`, which `send_msg` catches: the only effect is one error-level
log naming the missing field, with zero HTTP posts and no exception to
the caller (and no partial payload, rendering having failed as a
whole). -/
theorem missing_field_drops_notification (cfg : WebhookConfig) (net : Net)
    (m : Msg) (kv : String × Template) (rest : ValueDict) (f : String)
    (hget : getValueDict cfg m = .ok (some (kv :: rest)))
    (hrender : renderPayload (msgCtx m) (kv :: rest) = .error (.keyError f)) :
    send_msg cfg net m =
      ([.logError ("Problem calling Webhook. KeyError: " ++ f)], .ok ()) ∧
    countPosts (send_msg cfg net m).1 = 0 := by
  have hcore : sendMsgCore cfg net m = ([], .error (.keyError f)) := by
    simp [sendMsgCore, hget, hrender]
  have hmain : send_msg cfg net m =
      ([.logError ("Problem calling Webhook. KeyError: " ++ f)], .ok ()) := by
    simp [send_msg, hcore]
  refine ⟨hmain, ?_⟩
  rw [hmain]
  simp [countPosts, isPost]

/-- C6: a format outside form, json and raw makes the very first call to
`_post_msg` raise the configuration error (`NotImplementedError` in the
source); no post goes out, no retry happens, and the error propagates
through `_send_msg` and `send_msg` to the caller. -/
theorem unknown_format_raises_immediately (cfg : WebhookConfig) (net : Net)
    (m : Msg) (kv : String × Template) (rest : ValueDict)
    (payload : List (String × String))
    (hget : getValueDict cfg m = .ok (some (kv :: rest)))
    (hrender : renderPayload (msgCtx m) (kv :: rest) = .ok payload)
    (hform : cfg.format ≠ "form") (hjson : cfg.format ≠ "json")
    (hraw : cfg.format ≠ "raw") (hdest : hasDest cfg.url) :
    send_msg cfg net m =
      ([], .error (.notImplementedError ("Unknown format: " ++ cfg.format))) := by
  have hpost : ∀ n1 u2, postMsg cfg.format n1 u2 payload =
      ([], .error (.notImplementedError ("Unknown format: " ++ cfg.format))) := by
    intro n1 u2
    simp [postMsg, hform, hjson, hraw]
  have hatt : tryAttempt cfg (net 1) payload =
      ([], .error (.notImplementedError ("Unknown format: " ++ cfg.format))) := by
    cases hcu : cfg.url with
    | single u => simp [tryAttempt, hcu, hpost, Except.map]
    | list us =>
      cases us with
      | nil =>
        rw [hcu] at hdest
        simp [hasDest] at hdest
      | cons v vs => simp [tryAttempt, hcu, postSeq, hpost]
  have hinner : sendMsgInner cfg net payload =
      ([], .error (.notImplementedError ("Unknown format: " ++ cfg.format))) := by
    show sendLoop cfg net payload (cfg.retries + 1) 0 = _
    simp [sendLoop, hatt, retryPrologue]
  simp [send_msg, sendMsgCore, hget, hrender, hinner]

/-- C7: with raw format and a payload that has a `data` entry, the post
body is exactly that entry, sent with the explicit content type
`text/plain`; no other payload key appears in the transmitted body. -/
theorem raw_format_sends_data_only (net1 : PostResult) (u d : String)
    (payload : List (String × String))
    (hd : payload.lookup "data" = some d) :
    postMsg "raw" net1 u payload = doPost u (.raw d) (some "text/plain") net1 ∧
    (postMsg "raw" net1 u payload).1 =
      [.post u (.raw d) (some "text/plain")] := by
  have h1 : postMsg "raw" net1 u payload =
      doPost u (.raw d) (some "text/plain") net1 := by
    simp [postMsg, hd]
  exact ⟨h1, by rw [h1]; rfl⟩

/-- C9: with raw format and a rendered payload lacking a `data` entry, the
`KeyError` from `payload["data"]` skips the post, is not retried (it is
not a `RequestException`), escapes `_send_msg`, and is caught by the
`except KeyError` of `send_msg`: one error-level log, zero posts, zero
sleeps, clean return. -/
theorem raw_missing_data_key_caught (cfg : WebhookConfig) (net : Net)
    (m : Msg) (kv : String × Template) (rest : ValueDict)
    (payload : List (String × String))
    (hget : getValueDict cfg m = .ok (some (kv :: rest)))
    (hrender : renderPayload (msgCtx m) (kv :: rest) = .ok payload)
    (hfmt : cfg.format = "raw") (hnd : payload.lookup "data" = none)
    (hdest : hasDest cfg.url) :
    send_msg cfg net m =
      ([.logError ("Problem calling Webhook. KeyError: " ++ "data")], .ok ()) ∧
    countPosts (send_msg cfg net m).1 = 0 ∧
    countSleeps (send_msg cfg net m).1 = 0 := by
  have hpost : ∀ n1 u2, postMsg cfg.format n1 u2 payload =
      ([], .error (.keyError "data")) := by
    intro n1 u2
    simp [postMsg, hfmt, hnd]
  have hatt : tryAttempt cfg (net 1) payload =
      ([], .error (.keyError "data")) := by
    cases hcu : cfg.url with
    | single u => simp [tryAttempt, hcu, hpost, Except.map]
    | list us =>
      cases us with
      | nil =>
        rw [hcu] at hdest
        simp [hasDest] at hdest
      | cons v vs => simp [tryAttempt, hcu, postSeq, hpost]
  have hinner : sendMsgInner cfg net payload =
      ([], .error (.keyError "data")) := by
    show sendLoop cfg net payload (cfg.retries + 1) 0 = _
    simp [sendLoop, hatt, retryPrologue]
  have hmain : send_msg cfg net m =
      ([.logError ("Problem calling Webhook. KeyError: " ++ "data")], .ok ()) := by
    simp [send_msg, sendMsgCore, hget, hrender, hinner]
  refine ⟨hmain, ?_, ?_⟩ <;> rw [hmain] <;>
    simp [countPosts, countSleeps, isPost]

/-- Fan-out fixture: two destinations, one retry allowed. -/
def cfgC3 : WebhookConfig :=
  { url := .list ["http://one/hook", "http://two/hook"], format := "form",
    retries := 1, retry_delay := 1, timeout := 10,
    templates := [] }

/-- A network on which the first destination always answers 500 and the
second always answers 200. -/
def netC3 : Net := fun _ url =>
  if url = "http://one/hook" then .resp 500 else .resp 200

/-- A rendered payload for the fan-out fixture. -/
def payloadC3 : List (String × String) := [("status", "filled")]

/-- C3 (counterexample): the destinations do not run independent state
machines.  With `retries = 1` and the first url failing on every post,
that url is posted exactly once, no warning is logged, and the whole
delivery reports success, because the shared success flag is computed
from the last url response only.  Independent per-url machines would
have retried the failing url a second time and recorded its failure. -/
theorem fanout_shared_flag_no_independent_retry :
    cfgC3.retries = 1 ∧
    isFailing (netC3 1 "http://one/hook") = true ∧
    isFailing (netC3 2 "http://one/hook") = true ∧
    postsTo "http://one/hook" (sendMsgInner cfgC3 netC3 payloadC3).1 = 1 ∧
    countWarnings (sendMsgInner cfgC3 netC3 payloadC3).1 = 0 ∧
    (sendMsgInner cfgC3 netC3 payloadC3).2 = .ok () :=
  ⟨rfl, rfl, rfl, rfl, rfl, rfl⟩

/-- The per-attempt post sequence over a nonempty url list where every
post returns a response: every url is posted once, in order, and the
returned status is the status of the last url. -/
theorem postSeq_form_all_resp (netAtt : String → PostResult)
    (payload : List (String × String)) (st : String → Nat) :
    ∀ us (u : String), (∀ v ∈ us ++ [u], netAtt v = .resp (st v)) →
    postSeq "form" netAtt payload (us ++ [u]) =
      ((us ++ [u]).map (fun v => Event.post v (.form payload) none),
       .ok (some (st u))) := by
  intro us
  induction us with
  | nil =>
    intro u hresp
    have h1 : netAtt u = .resp (st u) := hresp u (by simp)
    simp [postSeq, postMsg, doPost, h1]
  | cons v vs ih =>
    intro u hresp
    have h1 : netAtt v = .resp (st v) := hresp v (by simp)
    have h2 := ih u (fun w hw => hresp w (List.mem_cons_of_mem v hw))
    simp [postSeq, postMsg, doPost, h1, h2]

/-- C3 (amended): within one attempt the source posts once to every url of
the list in order, and the outcome of the attempt is decided by the last
url response alone (`raise_for_status` runs on the one `response`
variable, which holds the last assignment); on failure the whole set is
re-posted, there is no per-url counter or outcome. -/
theorem fanout_attempt_decided_by_last_url (cfg : WebhookConfig)
    (netAtt : String → PostResult) (payload : List (String × String))
    (us : List String) (u : String) (st : String → Nat)
    (hu : cfg.url = .list (us ++ [u])) (hf : cfg.format = "form")
    (hresp : ∀ v ∈ us ++ [u], netAtt v = .resp (st v)) :
    tryAttempt cfg netAtt payload =
      ((us ++ [u]).map (fun v => Event.post v (.form payload) none),
       raiseForStatus (st u)) := by
  have hseq := postSeq_form_all_resp netAtt payload st us u hresp
  simp [tryAttempt, hu, hf, hseq]

/-- Passive-type fixture: the configuration names the passive type
`whitelist` as an exact template key. -/
def cfgC8 : WebhookConfig :=
  { url := .single "http://host/hook", format := "form", retries := 0,
    retry_delay := 0, timeout := 10,
    templates := [("whitelist", [("msgtext", [TmplPart.lit "list changed"])])] }

/-- An event record of the passive type `whitelist`. -/
def msgC8 : Msg := { type := "whitelist", fields := [] }

/-- C8 (counterexample): a passive event type does not skip for every
configuration.  Exact-key lookup has priority, so a configuration whose
webhook section names `whitelist` as a template key makes `send_msg`
render and post one HTTP request for a whitelist event. -/
theorem passive_type_with_exact_key_posts :
    msgC8.type ∈ passiveTypes ∧
    countPosts (send_msg cfgC8 netOk msgC8).1 = 1 ∧
    (send_msg cfgC8 netOk msgC8).2 = .ok () :=
  ⟨by decide, rfl, rfl⟩

/-- C8 (amended): for an event of a passive type, and any configuration
that does not carry the type canonical name as an exact template key
(or carries it mapped to an empty dict), `send_msg` resolves to no
template: one debug log, zero HTTP posts, no exception. -/
theorem passive_type_skips_without_exact_key (cfg : WebhookConfig)
    (net : Net) (m : Msg) (hp : m.type ∈ passiveTypes)
    (hnc : cfg.templates.lookup m.type = none ∨
      cfg.templates.lookup m.type = some []) :
    send_msg cfg net m =
      ([.logDebug ("Message type not configured for webhooks: " ++ m.type)],
       .ok ()) ∧
    countPosts (send_msg cfg net m).1 = 0 := by
  have hg : getValueDict cfg m = .ok none ∨ getValueDict cfg m = .ok (some []) := by
    rcases hnc with hl | hl
    · left
      simp [passiveTypes] at hp
      rcases m with ⟨t, fs⟩
      simp only at hp hl ⊢
      rcases hp with h | h | h | h | h | h <;> subst h <;>
        simp [getValueDict, hl, passiveTypes]
    · right
      simp [getValueDict, hl]
  have hcore : sendMsgCore cfg net m =
      ([.logDebug ("Message type not configured for webhooks: " ++ m.type)],
       .ok ()) := by
    rcases hg with h | h <;> simp [sendMsgCore, h]
  have hmain : send_msg cfg net m =
      ([.logDebug ("Message type not configured for webhooks: " ++ m.type)],
       .ok ()) := by
    simp [send_msg, hcore]
  refine ⟨hmain, ?_⟩
  rw [hmain]
  simp [countPosts, isPost]

/-! ## Witnesses: closed instances of the conditional theorems -/

/-- Retry fixture: retries two, one destination, form format. -/
def cfgC4 : WebhookConfig :=
  { url := .single "http://host/hook", format := "form", retries := 2,
    retry_delay := 1 / 2, timeout := 10, templates := [] }

/-- A network that always answers 503. -/
def netFail : Net := fun _ _ => .resp 503

/-- A rendered payload for the retry fixture. -/
def payloadC4 : List (String × String) := [("status", "filled")]

/-- Witness for the retry theorem at an always-503 network. -/
theorem webhook_retries2_three_posts_witness :
    (∀ i, isFailing (netFail i "http://host/hook") = true) ∧
    sendMsgInner cfgC4 netFail payloadC4 =
      ([.post "http://host/hook" (.form payloadC4) none,
        .logWarning "Could not call webhook url.",
        .sleep cfgC4.retry_delay, .logInfo "Retrying webhook...",
        .post "http://host/hook" (.form payloadC4) none,
        .logWarning "Could not call webhook url.",
        .sleep cfgC4.retry_delay, .logInfo "Retrying webhook...",
        .post "http://host/hook" (.form payloadC4) none,
        .logWarning "Could not call webhook url."], .ok ()) :=
  ⟨fun _ => rfl,
   webhook_retries2_three_posts cfgC4 "http://host/hook" netFail payloadC4
     rfl rfl rfl (by norm_num [cfgC4]) (fun _ => rfl)⟩

/-- Missing-field fixture: the status template references a `pair` field
that the event record does not carry. -/
def cfgC5 : WebhookConfig :=
  { url := .single "http://host/hook", format := "form", retries := 0,
    retry_delay := 0, timeout := 10,
    templates := [("status", [("text", [TmplPart.field "pair"])])] }

/-- A status event without a `pair` field. -/
def msgC5 : Msg := { type := "status", fields := [] }

/-- Witness for the missing-field theorem. -/
theorem missing_field_drops_notification_witness :
    getValueDict cfgC5 msgC5 =
      .ok (some [("text", [TmplPart.field "pair"])]) ∧
    renderPayload (msgCtx msgC5) [("text", [TmplPart.field "pair"])] =
      .error (.keyError "pair") ∧
    send_msg cfgC5 netOk msgC5 =
      ([.logError ("Problem calling Webhook. KeyError: " ++ "pair")], .ok ()) ∧
    countPosts (send_msg cfgC5 netOk msgC5).1 = 0 :=
  ⟨rfl, rfl,
   (missing_field_drops_notification cfgC5 netOk msgC5
     ("text", [TmplPart.field "pair"]) [] "pair" rfl rfl).1,
   (missing_field_drops_notification cfgC5 netOk msgC5
     ("text", [TmplPart.field "pair"]) [] "pair" rfl rfl).2⟩

/-- Unsupported-format fixture: format `xml`. -/
def cfgC6 : WebhookConfig :=
  { url := .single "http://host/hook", format := "xml", retries := 3,
    retry_delay := 1, timeout := 10,
    templates := [("status", [("text", [TmplPart.lit "up"])])] }

/-- A status event for the format fixture. -/
def msgC6 : Msg := { type := "status", fields := [] }

/-- Witness for the unsupported-format theorem at format `xml`. -/
theorem unknown_format_raises_immediately_witness :
    cfgC6.format = "xml" ∧
    send_msg cfgC6 netOk msgC6 =
      ([], .error (.notImplementedError ("Unknown format: " ++ cfgC6.format))) :=
  ⟨rfl,
   unknown_format_raises_immediately cfgC6 netOk msgC6
     ("text", [TmplPart.lit "up"]) [] [("text", "up")] rfl rfl
     (by decide) (by decide) (by decide) trivial⟩

/-- Witness for the raw-format theorem at a payload carrying `data`. -/
theorem raw_format_sends_data_only_witness :
    List.lookup "data" [("data", "hello"), ("extra", "ignored")] =
      some "hello" ∧
    postMsg "raw" (.resp 200) "http://host/hook"
        [("data", "hello"), ("extra", "ignored")] =
      doPost "http://host/hook" (.raw "hello") (some "text/plain")
        (.resp 200) :=
  ⟨rfl,
   (raw_format_sends_data_only (.resp 200) "http://host/hook" "hello"
     [("data", "hello"), ("extra", "ignored")] rfl).1⟩

/-- Raw-format fixture without a `data` output key. -/
def cfgC9 : WebhookConfig :=
  { url := .single "http://host/hook", format := "raw", retries := 5,
    retry_delay := 1, timeout := 10,
    templates := [("status", [("text", [TmplPart.lit "up"])])] }

/-- A status event for the raw fixture. -/
def msgC9 : Msg := { type := "status", fields := [] }

/-- Witness for the raw-missing-data theorem. -/
theorem raw_missing_data_key_caught_witness :
    cfgC9.format = "raw" ∧
    List.lookup "data" [("text", "up")] = none ∧
    send_msg cfgC9 netOk msgC9 =
      ([.logError ("Problem calling Webhook. KeyError: " ++ "data")], .ok ()) ∧
    countPosts (send_msg cfgC9 netOk msgC9).1 = 0 :=
  ⟨rfl, rfl,
   (raw_missing_data_key_caught cfgC9 netOk msgC9
     ("text", [TmplPart.lit "up"]) [] [("text", "up")]
     rfl rfl rfl rfl trivial).1,
   (raw_missing_data_key_caught cfgC9 netOk msgC9
     ("text", [TmplPart.lit "up"]) [] [("text", "up")]
     rfl rfl rfl rfl trivial).2.1⟩

/-- Status function for the fan-out witness: 500 on the first url, 200 on
any other. -/
def stC3 : String → Nat := fun v => if v = "http://one/hook" then 500 else 200

/-- Witness for the fan-out attempt theorem on the two-url fixture: both
urls are posted once and the attempt outcome is computed from the second
(last) url status alone. -/
theorem fanout_attempt_decided_by_last_url_witness :
    (∀ v ∈ ["http://one/hook"] ++ ["http://two/hook"],
      netC3 1 v = .resp (stC3 v)) ∧
    tryAttempt cfgC3 (netC3 1) payloadC3 =
      ((["http://one/hook"] ++ ["http://two/hook"]).map
        (fun v => Event.post v (.form payloadC3) none),
       raiseForStatus (stC3 "http://two/hook")) := by
  have hresp : ∀ v ∈ ["http://one/hook"] ++ ["http://two/hook"],
      netC3 1 v = .resp (stC3 v) := by
    intro v _
    by_cases h : v = "http://one/hook" <;> simp [netC3, stC3, h]
  exact ⟨hresp,
    fanout_attempt_decided_by_last_url cfgC3 (netC3 1) payloadC3
      ["http://one/hook"] "http://two/hook" stC3 rfl rfl hresp⟩

/-- A configuration with no template keys for the passive witness. -/
def cfgC8w : WebhookConfig :=
  { url := .single "http://host/hook", format := "form", retries := 0,
    retry_delay := 0, timeout := 10, templates := [] }

/-- A passive new-candle event. -/
def msgC8w : Msg := { type := "new_candle", fields := [] }

/-- Witness for the passive-skip theorem on a configuration without the
passive key. -/
theorem passive_type_skips_without_exact_key_witness :
    msgC8w.type ∈ passiveTypes ∧
    send_msg cfgC8w netOk msgC8w =
      ([.logDebug ("Message type not configured for webhooks: " ++
        msgC8w.type)], .ok ()) ∧
    countPosts (send_msg cfgC8w netOk msgC8w).1 = 0 :=
  ⟨by decide,
   (passive_type_skips_without_exact_key cfgC8w netOk msgC8w (by decide)
     (Or.inl rfl)).1,
   (passive_type_skips_without_exact_key cfgC8w netOk msgC8w (by decide)
     (Or.inl rfl)).2⟩

end FT
